import Mathlib

/-!
# Verification of the temporary guest-access (share-link) subsystem

Shallow embedding of `custom_components/rosdomofon/share.py` (plus the
`ttl_hours` validator of the `generate_share_link` service schema from
`custom_components/rosdomofon/__init__.py`).

Modelling conventions:
* Python `float` timestamps and TTLs are modelled as `ℚ`; `time.time()` is an
  explicit `now : ℚ` parameter.
* The manager's mutable state (`self._links`, the set of registered webhooks,
  the set of pending one-shot expiry timers) is an explicit `ManagerState`
  record; the Python `dict` is an association list with Python-dict lookup,
  insert-or-replace and remove semantics.
* `uuid.uuid4().hex` (the random source) is an explicit `uuid_hex` parameter.
* `hass.states.get(entity_id)` is a function `statesGet : String → Option
  String` returning the entity's display name (`state.name`) when the entity
  resolves; `hass.services.async_call("lock", "unlock", …, blocking=True)` and
  its possible exception are an explicit `unlockResult : Except String Unit`
  parameter, where the `String` of the error case is `str(exc)`.
* A `web.Response` is a `GuestResponse`; `web.json_response(payload)` keeps its
  payload as an association list of JSON fields instead of rendered JSON text.
-/

/-- `SHARE_LINK_DEFAULT_TTL_HOURS` from `const.py`. -/
def SHARE_LINK_DEFAULT_TTL_HOURS : ℚ := 12

/-- The `ShareLink` dataclass from `share.py` (the `cancel_expiry` timer handle
is modelled separately, as membership of the link's id in `ManagerState.timers`). -/
structure ShareLink where
  webhook_id : String
  entity_id : String
  created_at : ℚ
  ttl_hours : ℚ := SHARE_LINK_DEFAULT_TTL_HOURS
  deriving DecidableEq

/-- `ShareLink.expires_at`: `created_at + ttl_hours * 3600`. -/
def ShareLink.expires_at (l : ShareLink) : ℚ :=
  l.created_at + l.ttl_hours * 3600

/-- `ShareLink.is_expired`: `time.time() > self.expires_at` (strict). -/
def ShareLink.is_expired (l : ShareLink) (now : ℚ) : Bool :=
  decide (l.expires_at < now)

/-- Python `dict.get(k)` on the `webhook_id -> ShareLink` registry. -/
def dictGet : List (String × ShareLink) → String → Option ShareLink
  | [], _ => none
  | p :: rest, k => if p.1 = k then some p.2 else dictGet rest k

/-- Python `d[k] = v`: replaces the binding in place when the key is present,
otherwise appends it. -/
def dictInsert : List (String × ShareLink) → String → ShareLink → List (String × ShareLink)
  | [], k, v => [(k, v)]
  | p :: rest, k, v => if p.1 = k then (k, v) :: rest else p :: dictInsert rest k v

/-- Python `d.pop(k, None)`'s effect on the map (removal of the binding; a
no-op when the key is absent). -/
def dictErase (m : List (String × ShareLink)) (k : String) : List (String × ShareLink) :=
  m.filter (fun p => p.1 != k)

/-- The observable state of a `ShareLinkManager`: the registry `self._links`,
the webhook ids currently registered with `webhook.async_register`, and the
webhook ids whose one-shot expiry timer (`async_call_later`) is still pending. -/
structure ManagerState where
  links : List (String × ShareLink)
  webhooks : List String
  timers : List String
  deriving DecidableEq

/-- The empty state of a freshly constructed `ShareLinkManager`. -/
def ManagerState.initial : ManagerState :=
  { links := [], webhooks := [], timers := [] }

/-- The exception raised by `ShareLinkManager.generate` when
`get_external_url()` returns `None` (class `ExternalURLNotAvailable`). -/
inductive GenerateError where
  | ExternalURLNotAvailable
  deriving DecidableEq

/-- `ShareLinkManager.generate(entity_id, ttl_hours)`.  `external_url` is the
result of `self.get_external_url()` and `uuid_hex` is `uuid.uuid4().hex`; `now`
is the issuance time.  On failure the exception is returned together with the
unchanged state; on success the full URL is returned together with the state
after webhook registration, timer scheduling and registry insertion. -/
def ShareLinkManager.generate (st : ManagerState) (external_url : Option String)
    (uuid_hex : String) (entity_id : String) (ttl_hours : ℚ) (now : ℚ) :
    Except GenerateError String × ManagerState :=
  match external_url with
  | none => (Except.error GenerateError.ExternalURLNotAvailable, st)
  | some url =>
      let webhook_id := "rosdomofon_share_" ++ uuid_hex
      let st1 : ManagerState := { st with webhooks := st.webhooks ++ [webhook_id] }
      let link : ShareLink :=
        { webhook_id := webhook_id, entity_id := entity_id,
          created_at := now, ttl_hours := ttl_hours }
      let st2 : ManagerState := { st1 with timers := st1.timers ++ [webhook_id] }
      let st3 : ManagerState := { st2 with links := dictInsert st2.links webhook_id link }
      (Except.ok (url ++ "/api/webhook/" ++ webhook_id), st3)

/-- `ShareLinkManager.revoke(webhook_id)`: pops the link (absent id is a
no-op), cancels its expiry timer, and unregisters the webhook, swallowing the
`ValueError` raised when it is already unregistered. -/
def ShareLinkManager.revoke (st : ManagerState) (webhook_id : String) : ManagerState :=
  match dictGet st.links webhook_id with
  | none => st
  | some _ =>
      { links := dictErase st.links webhook_id,
        webhooks := st.webhooks.filter (fun w => w != webhook_id),
        timers := st.timers.filter (fun t => t != webhook_id) }

/-- `ShareLinkManager.revoke_all()`: revokes every id in a snapshot of the
registry's keys. -/
def ShareLinkManager.revoke_all (st : ManagerState) : ManagerState :=
  (st.links.map Prod.fst).foldl ShareLinkManager.revoke st

/-- The body of the `_expire` callback built by
`ShareLinkManager._make_expiry_callback(webhook_id)`: pops the link with a
`None` default (no-op when absent) and unregisters the webhook, swallowing the
`ValueError` when it is already unregistered. -/
def ShareLinkManager._expire (st : ManagerState) (webhook_id : String) : ManagerState :=
  { st with links := dictErase st.links webhook_id,
            webhooks := st.webhooks.filter (fun w => w != webhook_id) }

/-- The HTTP methods the share-link webhook is registered for
(`allowed_methods=(hdrs.METH_GET, hdrs.METH_POST)`); `_handle_webhook` treats
every non-GET request as the POST confirmation. -/
inductive Method where
  | GET
  | POST
  deriving DecidableEq

/-- A response body: an HTML page (`web.Response(text=…)`) or the JSON payload
of a `web.json_response(…)`, kept as its field list. -/
inductive ResponseBody where
  | html (page : String)
  | json (fields : List (String × String))
  deriving DecidableEq

/-- The observable parts of an `aiohttp.web.Response`. -/
structure GuestResponse where
  status : Nat
  content_type : String
  body : ResponseBody
  deriving DecidableEq

/-- Result of one `_handle_webhook` call: the response, the registry afterwards
(the handler only reads it), and the `("lock", "unlock")` service invocations
performed, as `(entity_id, blocking)` pairs in order. -/
structure WebhookOutcome where
  response : GuestResponse
  links : List (String × ShareLink)
  unlockCalls : List (String × Bool)
  deriving DecidableEq

/-- Modelled from the spec: the error-page builder `_html_page` is called by
`_handle_webhook` in `share.py` but its definition is not among the provided
source files.  Per the spec, all guest-facing errors are converted to safe
generic messages, so the page is rendered from the given title and message
only (with a success flag for styling) and contains no other data. -/
def _html_page (title message : String) (success : Bool) : String :=
  "<!DOCTYPE html><html lang=\"ru\"><head><meta charset=\"utf-8\"><title>" ++ title ++
    "</title></head><body class=\"" ++ (if success then "ok" else "error") ++ "\"><h1>" ++
    title ++ "</h1><p>" ++ message ++ "</p></body></html>"

/-- The 410 response of `_handle_webhook` for an absent or expired link. -/
def invalidLinkResponse : GuestResponse :=
  { status := 410, content_type := "text/html",
    body := ResponseBody.html
      (_html_page "Ссылка недействительна" "Срок действия ссылки истёк или она была отозвана." false) }

/-- The 404 response of `_handle_webhook` when `hass.states.get(entity_id)` is `None`. -/
def entityNotFoundResponse : GuestResponse :=
  { status := 404, content_type := "text/html",
    body := ResponseBody.html
      (_html_page "Ошибка" "Замок не найден. Возможно, интеграция была перенастроена." false) }

/-- Literal text of the `_html_page_with_button` f-string before `{display_name}`
(with the constant colour interpolations substituted, as Python does). -/
def htmlButtonSeg1 : String :=
  "<!DOCTYPE html>\n<html lang=\"ru\">\n<head>\n  <meta charset=\"utf-8\">\n  <meta name=\"viewport\" content=\"width=device-width, initial-scale=1\">\n  <title>Гостевой доступ</title>\n  <style>\n    * \x7b box-sizing: border-box; \x7d\n    body \x7b\n      margin: 0;\n      min-height: 100vh;\n      display: flex;\n      justify-content: center;\n      align-items: center;\n      font-family: -apple-system, BlinkMacSystemFont, \x27Segoe UI\x27, Roboto, sans-serif;\n      background: linear-gradient(160deg, #8fb7ff, #c7a4ff);\n      color: #ffffff;\n    \x7d\n    .card \x7b\n      background: rgba(255, 255, 255, 0.08);\n      border-radius: 24px;\n      padding: 32px 24px 28px;\n      width: 100%;\n      max-width: 420px;\n      box-shadow: 0 18px 45px rgba(0, 0, 0, 0.25);\n      backdrop-filter: blur(18px);\n      text-align: center;\n    \x7d\n    .title \x7b\n      font-size: 1.15rem;\n      font-weight: 600;\n      margin-bottom: 8px;\n    \x7d\n    .subtitle \x7b\n      font-size: 0.9rem;\n      opacity: 0.9;\n      margin-bottom: 24px;\n    \x7d\n    .timer \x7b\n      font-size: 0.85rem;\n      opacity: 0.95;\n      margin-bottom: 28px;\n    \x7d\n    .timer span \x7b\n      font-weight: 600;\n    \x7d\n    .button-wrapper \x7b\n      display: flex;\n      flex-direction: column;\n      align-items: center;\n      gap: 10px;\n    \x7d\n    .circle-button \x7b\n      position: relative;\n      width: 180px;\n      height: 180px;\n      border-radius: 50%;\n      border: none;\n      background: #fff;\n      color: #7b5cff;\n      display: flex;\n      flex-direction: column;\n      align-items: center;\n      justify-content: center;\n      cursor: pointer;\n      box-shadow: 0 12px 30px rgba(0,0,0,0.20);\n      transition: transform 0.12s ease, box-shadow 0.12s ease, background 0.15s ease;\n    \x7d\n    .circle-button:active \x7b\n      transform: scale(0.97);\n      box-shadow: 0 8px 22px rgba(0,0,0,0.24);\n    \x7d\n    .circle-button.disabled \x7b\n      cursor: default;\n      opacity: 0.85;\n      box-shadow: 0 6px 16px rgba(0,0,0,0.15);\n    \x7d\n    .icon \x7b\n      font-size: 44px;\n      margin-bottom: 8px;\n    \x7d\n    .label \x7b\n      font-size: 1.05rem;\n      font-weight: 700;\n      letter-spacing: 0.08em;\n    \x7d\n    .status-ok \x7b color: #1EB980; \x7d\n    .status-error \x7b color: #FF5252; \x7d\n    .status-progress \x7b color: #7b5cff; \x7d\n    .error-text \x7b\n      margin-top: 4px;\n      min-height: 1.2em;\n      font-size: 0.85rem;\n      color: #FFE8E8;\n    \x7d\n    .hint \x7b\n      margin-top: 18px;\n      font-size: 0.8rem;\n      opacity: 0.85;\n    \x7d\n  </style>\n</head>\n<body>\n  <div class=\"card\">\n    <div class=\"title\">Вам предоставили временный ключ для открытия "

/-- Literal text of the f-string between `{display_name}` and `{remaining_hours}`. -/
def htmlButtonSeg2 : String :=
  "</div>\n    <div class=\"timer\">Ключ действует: <span>"

/-- Literal text of the f-string between `{remaining_hours}` and `{remaining_minutes}`. -/
def htmlButtonSeg3 : String :=
  "ч "

/-- Literal text of the f-string after `{remaining_minutes}`. -/
def htmlButtonSeg4 : String :=
  "м</span></div>\n\n    <div class=\"button-wrapper\">\n      <button class=\"circle-button\" id=\"open-btn\">\n        <div class=\"icon\" id=\"btn-icon\">🔓</div>\n        <div class=\"label status-progress\" id=\"btn-label\">ОТКРЫТЬ</div>\n      </button>\n      <div class=\"error-text\" id=\"error-text\"></div>\n    </div>\n\n    <div class=\"hint\">Не закрывайте страницу, пока дверь открывается.</div>\n  </div>\n\n  <script>\n    const btn = document.getElementById(\x27open-btn\x27);\n    const icon = document.getElementById(\x27btn-icon\x27);\n    const label = document.getElementById(\x27btn-label\x27);\n    const errorText = document.getElementById(\x27error-text\x27);\n\n    let resetTimeout = null;\n\n    function setStateIdle() \x7b\n      btn.classList.remove(\x27disabled\x27);\n      icon.textContent = \x27🔓\x27;\n      label.textContent = \x27ОТКРЫТЬ\x27;\n      label.className = \x27label status-progress\x27;\n      errorText.textContent = \x27\x27;\n    \x7d\n\n    function setStateProgress() \x7b\n      btn.classList.add(\x27disabled\x27);\n      icon.textContent = \x27⏳\x27;\n      label.textContent = \x27ОТКРЫВАЕМ...\x27;\n      label.className = \x27label status-progress\x27;\n      errorText.textContent = \x27\x27;\n    \x7d\n\n    function setStateOk() \x7b\n      btn.classList.add(\x27disabled\x27);\n      icon.textContent = \x27✅\x27;\n      label.textContent = \x27ОТКРЫТО\x27;\n      label.className = \x27label status-ok\x27;\n    \x7d\n\n    function setStateError(message) \x7b\n      btn.classList.remove(\x27disabled\x27);\n      icon.textContent = \x27❌\x27;\n      label.textContent = \x27ОШИБКА\x27;\n      label.className = \x27label status-error\x27;\n      errorText.textContent = message || \x27Произошла ошибка при открытии.\x27;\n    \x7d\n\n    async function handleClick() \x7b\n      if (btn.classList.contains(\x27disabled\x27)) \x7b\n        return;\n      \x7d\n      window.clearTimeout(resetTimeout);\n      setStateProgress();\n\n      try \x7b\n        const resp = await fetch(window.location.href, \x7b method: \x27POST\x27 \x7d);\n        const data = await resp.json();\n\n        if (resp.ok && data.status === \x27ok\x27) \x7b\n          setStateOk();\n          resetTimeout = window.setTimeout(setStateIdle, 5000);\n        \x7d else \x7b\n          const msg = data && data.message ? data.message : \x27Не удалось открыть дверь.\x27;\n          setStateError(msg);\n        \x7d\n      \x7d catch (err) \x7b\n        setStateError(\x27Ошибка соединения. Попробуйте ещё раз.\x27);\n      \x7d\n    \x7d\n\n    btn.addEventListener(\x27click\x27, handleClick);\n  </script>\n</body>\n</html>"

/-- `_html_page_with_button(display_name, remaining_hours, remaining_minutes)`:
the confirmation page f-string, as the concatenation of its literal segments
and interpolated values. -/
def _html_page_with_button (display_name : String)
    (remaining_hours remaining_minutes : ℤ) : String :=
  htmlButtonSeg1 ++ display_name ++ htmlButtonSeg2 ++ toString remaining_hours ++
    htmlButtonSeg3 ++ toString remaining_minutes ++ htmlButtonSeg4

/-- `ShareLinkManager._handle_webhook`.  `links` is `self._links`; `statesGet`
models `hass.states.get` (returning the entity's `state.name`); `unlockResult`
models the `hass.services.async_call("lock", "unlock", …, blocking=True)` call,
with `Except.error e` for an exception whose `str(exc)` is `e`. -/
def ShareLinkManager._handle_webhook (links : List (String × ShareLink))
    (webhook_id : String) (method : Method) (now : ℚ)
    (statesGet : String → Option String) (unlockResult : Except String Unit) :
    WebhookOutcome :=
  match dictGet links webhook_id with
  | none => { response := invalidLinkResponse, links := links, unlockCalls := [] }
  | some link =>
      if link.is_expired now then
        { response := invalidLinkResponse, links := links, unlockCalls := [] }
      else
        match statesGet link.entity_id with
        | none => { response := entityNotFoundResponse, links := links, unlockCalls := [] }
        | some name =>
            let display_name := if name = "" then "Замок" else name
            match method with
            | Method.GET =>
                let remaining : ℚ := max 0 (link.expires_at - now)
                let remaining_hours : ℤ := ⌊remaining / 3600⌋
                let remaining_minutes : ℤ :=
                  ⌊(remaining - 3600 * ((⌊remaining / 3600⌋ : ℤ) : ℚ)) / 60⌋
                { response :=
                    { status := 200, content_type := "text/html",
                      body := ResponseBody.html
                        (_html_page_with_button display_name remaining_hours remaining_minutes) },
                  links := links, unlockCalls := [] }
            | Method.POST =>
                match unlockResult with
                | Except.error exc =>
                    { response :=
                        { status := 500, content_type := "application/json",
                          body := ResponseBody.json
                            [("status", "error"), ("error", exc), ("title", "Ошибка"),
                             ("message",
                              "Не удалось открыть " ++ display_name ++ ". Попробуйте позже.")] },
                      links := links, unlockCalls := [(link.entity_id, true)] }
                | Except.ok _ =>
                    { response :=
                        { status := 200, content_type := "application/json",
                          body := ResponseBody.json
                            [("status", "ok"), ("title", display_name ++ " открыта"),
                             ("message", display_name ++ " успешно открыта.")] },
                      links := links, unlockCalls := [(link.entity_id, true)] }

/-- The `ttl_hours` field validator of `SERVICE_GENERATE_LINK_SCHEMA` in
`__init__.py`: `vol.All(vol.Coerce(float), vol.Range(min=0.5, max=168))`. -/
def SERVICE_GENERATE_LINK_SCHEMA_ttl_ok (ttl_hours : ℚ) : Bool :=
  decide ((1 : ℚ) / 2 ≤ ttl_hours) && decide (ttl_hours ≤ 168)

/-! ## Registry (association-list) lemmas -/

/-- Looking up the key just inserted returns the inserted record. -/
theorem dictGet_dictInsert_self (m : List (String × ShareLink)) (k : String) (v : ShareLink) :
    dictGet (dictInsert m k v) k = some v := by
  induction m with
  | nil => simp [dictGet, dictInsert]
  | cons p rest ih =>
      by_cases h : p.1 = k
      · simp [dictGet, dictInsert, h]
      · simp [dictGet, dictInsert, h, ih]

/-- A key is no longer found after being removed. -/
theorem dictGet_dictErase_self (m : List (String × ShareLink)) (k : String) :
    dictGet (dictErase m k) k = none := by
  induction m with
  | nil => rfl
  | cons p rest ih =>
      by_cases h : p.1 = k
      · simpa [dictErase, List.filter_cons, h] using ih
      · simpa [dictErase, List.filter_cons, h, dictGet, bne_iff_ne] using ih

/-- Removing an absent key leaves the map unchanged. -/
theorem dictErase_of_dictGet_none (m : List (String × ShareLink)) (k : String)
    (h : dictGet m k = none) : dictErase m k = m := by
  induction m with
  | nil => rfl
  | cons p rest ih =>
      by_cases hp : p.1 = k
      · simp [dictGet, hp] at h
      · simp [dictGet, hp] at h
        simp [dictErase, List.filter_cons, bne_iff_ne, hp] at ih ⊢
        exact ih h

/-- Inserting over an existing key does not change the number of records. -/
theorem length_dictInsert_of_mem (m : List (String × ShareLink)) (k : String) (v old : ShareLink)
    (h : dictGet m k = some old) : (dictInsert m k v).length = m.length := by
  induction m with
  | nil => simp [dictGet] at h
  | cons p rest ih =>
      by_cases hp : p.1 = k
      · simp [dictInsert, hp]
      · simp [dictGet, hp] at h
        simp [dictInsert, hp, ih h]

/-! ## Concrete fixtures used by the witnesses and counterexamples -/

/-- A concrete active link: issued at time 0 for one hour. -/
def lW : ShareLink :=
  { webhook_id := "rosdomofon_share_aa", entity_id := "lock.front_door",
    created_at := 0, ttl_hours := 1 }

/-- A concrete manager state holding exactly the link `lW`, with its webhook
registered and its expiry timer pending. -/
def stW : ManagerState :=
  { links := [("rosdomofon_share_aa", lW)],
    webhooks := ["rosdomofon_share_aa"],
    timers := ["rosdomofon_share_aa"] }

/-- A concrete `hass.states.get` in which every entity resolves with a
human-readable name. -/
def sgW : String → Option String := fun _ => some "Дверь подъезда"

theorem lW_not_expired_at_10 : lW.is_expired 10 = false := by
  simp [lW, ShareLink.is_expired, ShareLink.expires_at]
  norm_num

theorem lW_not_expired_at_expiry : lW.is_expired (lW.created_at + lW.ttl_hours * 3600) = false := by
  simp [lW, ShareLink.is_expired, ShareLink.expires_at]

/-- On a present, unexpired link whose entity resolves, a POST always invokes
the unlock action on the link's entity, exactly once, with `blocking=True`
(whether or not the invocation then raises). -/
theorem unlock_called_on_valid_post (links : List (String × ShareLink))
    (webhook_id : String) (l : ShareLink) (now : ℚ) (sg : String → Option String)
    (n : String) (ur : Except String Unit)
    (h1 : dictGet links webhook_id = some l) (h2 : l.is_expired now = false)
    (h3 : sg l.entity_id = some n) :
    (ShareLinkManager._handle_webhook links webhook_id Method.POST now sg ur).unlockCalls
      = [(l.entity_id, true)] := by
  cases ur with
  | error e => simp [ShareLinkManager._handle_webhook, h1, h2, h3]
  | ok u => simp [ShareLinkManager._handle_webhook, h1, h2, h3]

/-! ## C1 — invalid or expired link -/

/-- C1: for every incoming guest request (GET or POST) whose link id is absent
from the registry or whose record is expired, `_handle_webhook` returns the
terminal "link invalid" 410 response; no unlock invocation occurs and the
registry is untouched. -/
theorem invalid_or_expired_link_gets_410
    (links : List (String × ShareLink)) (webhook_id : String) (method : Method)
    (now : ℚ) (statesGet : String → Option String) (unlockResult : Except String Unit)
    (h : dictGet links webhook_id = none ∨
      ∃ l, dictGet links webhook_id = some l ∧ l.is_expired now = true) :
    (ShareLinkManager._handle_webhook links webhook_id method now statesGet
        unlockResult).response = invalidLinkResponse ∧
    invalidLinkResponse.status = 410 ∧
    (ShareLinkManager._handle_webhook links webhook_id method now statesGet
        unlockResult).unlockCalls = [] ∧
    (ShareLinkManager._handle_webhook links webhook_id method now statesGet
        unlockResult).links = links := by
  rcases h with h | ⟨l, h1, h2⟩
  · exact ⟨by simp [ShareLinkManager._handle_webhook, h], rfl,
      by simp [ShareLinkManager._handle_webhook, h],
      by simp [ShareLinkManager._handle_webhook, h]⟩
  · exact ⟨by simp [ShareLinkManager._handle_webhook, h1, h2], rfl,
      by simp [ShareLinkManager._handle_webhook, h1, h2],
      by simp [ShareLinkManager._handle_webhook, h1, h2]⟩

/-- C1 witness: a request for an id absent from the empty registry gets the 410
response and triggers no unlock. -/
theorem invalid_or_expired_link_gets_410_witness :
    (ShareLinkManager._handle_webhook [] "rosdomofon_share_zz" Method.GET 0 sgW
        (Except.ok ())).response = invalidLinkResponse ∧
    (ShareLinkManager._handle_webhook [] "rosdomofon_share_zz" Method.GET 0 sgW
        (Except.ok ())).unlockCalls = [] :=
  ⟨(invalid_or_expired_link_gets_410 [] "rosdomofon_share_zz" Method.GET 0 sgW
      (Except.ok ()) (Or.inl rfl)).1,
   (invalid_or_expired_link_gets_410 [] "rosdomofon_share_zz" Method.GET 0 sgW
      (Except.ok ()) (Or.inl rfl)).2.2.1⟩

/-! ## C5 — no public base URL -/

/-- C5: when `get_external_url()` returns `None`, `generate` fails with
`ExternalURLNotAvailable` and performs the check before creating any state:
the returned state is exactly the input state (in particular, starting from
the initial state the registry stays empty, no webhook handler is registered
and no timer is scheduled). -/
theorem generate_no_external_url_fails_before_state
    (st : ManagerState) (uuid_hex entity_id : String) (ttl_hours now : ℚ) :
    ShareLinkManager.generate st none uuid_hex entity_id ttl_hours now
      = (Except.error GenerateError.ExternalURLNotAvailable, st) ∧
    ShareLinkManager.generate ManagerState.initial none uuid_hex entity_id ttl_hours now
      = (Except.error GenerateError.ExternalURLNotAvailable, ManagerState.initial) :=
  ⟨rfl, rfl⟩

/-! ## C6 — revocation is idempotent -/

/-- C6: `revoke` is idempotent: revoking an absent id is a no-op (not an
error), revoking twice equals revoking once, revoking a present link removes
it from the registry and cancels its pending expiry timer, and the `_expire`
callback fired on an already-removed id leaves the registry as it is. -/
theorem revoke_idempotent (st : ManagerState) (webhook_id : String) :
    (dictGet st.links webhook_id = none → ShareLinkManager.revoke st webhook_id = st) ∧
    ShareLinkManager.revoke (ShareLinkManager.revoke st webhook_id) webhook_id
      = ShareLinkManager.revoke st webhook_id ∧
    (∀ l, dictGet st.links webhook_id = some l →
      dictGet (ShareLinkManager.revoke st webhook_id).links webhook_id = none ∧
      webhook_id ∉ (ShareLinkManager.revoke st webhook_id).timers) ∧
    (dictGet st.links webhook_id = none →
      (ShareLinkManager._expire st webhook_id).links = st.links) := by
  refine ⟨?_, ?_, ?_, ?_⟩
  · intro h
    simp [ShareLinkManager.revoke, h]
  · cases hm : dictGet st.links webhook_id with
    | none => simp [ShareLinkManager.revoke, hm]
    | some l => simp [ShareLinkManager.revoke, hm, dictGet_dictErase_self]
  · intro l hm
    constructor
    · simp [ShareLinkManager.revoke, hm, dictGet_dictErase_self]
    · simp [ShareLinkManager.revoke, hm, List.mem_filter]
  · intro h
    simp [ShareLinkManager._expire, dictErase_of_dictGet_none st.links webhook_id h]

/-- C6 witness: concrete checks — double revocation of the only link in `stW`
equals a single revocation, revoking an id absent from the initial state is a
no-op, the revoked link is gone from the registry and its timer is cancelled,
and the expiry callback on the initial state leaves the registry unchanged. -/
theorem revoke_idempotent_witness :
    ShareLinkManager.revoke (ShareLinkManager.revoke stW "rosdomofon_share_aa")
        "rosdomofon_share_aa" = ShareLinkManager.revoke stW "rosdomofon_share_aa" ∧
    ShareLinkManager.revoke ManagerState.initial "rosdomofon_share_zz" = ManagerState.initial ∧
    dictGet (ShareLinkManager.revoke stW "rosdomofon_share_aa").links "rosdomofon_share_aa"
      = none ∧
    "rosdomofon_share_aa" ∉ (ShareLinkManager.revoke stW "rosdomofon_share_aa").timers ∧
    (ShareLinkManager._expire ManagerState.initial "rosdomofon_share_zz").links
      = ManagerState.initial.links :=
  ⟨(revoke_idempotent stW "rosdomofon_share_aa").2.1,
   (revoke_idempotent ManagerState.initial "rosdomofon_share_zz").1 rfl,
   ((revoke_idempotent stW "rosdomofon_share_aa").2.2.1 lW rfl).1,
   ((revoke_idempotent stW "rosdomofon_share_aa").2.2.1 lW rfl).2,
   (revoke_idempotent ManagerState.initial "rosdomofon_share_zz").2.2.2 rfl⟩

/-! ## C3 — expiry boundary -/

/-- C3 counterexample: for the concrete link `lW` with an in-range TTL of one
hour, `is_expired` is still false at exactly `created_at + ttl` (the code uses
the strict test `now > expires_at`), and a confirmation request arriving at
exactly `expires_at` is accepted — the unlock action is invoked — rather than
rejected as the claim requires. -/
theorem expiry_boundary_counterexample :
    ((1 : ℚ) / 2 ≤ lW.ttl_hours ∧ lW.ttl_hours ≤ 168) ∧
    lW.is_expired (lW.created_at + lW.ttl_hours * 3600) = false ∧
    (ShareLinkManager._handle_webhook stW.links "rosdomofon_share_aa" Method.POST
        (lW.created_at + lW.ttl_hours * 3600) sgW (Except.ok ())).unlockCalls
      = [("lock.front_door", true)] := by
  refine ⟨⟨by norm_num [lW], by norm_num [lW]⟩, lW_not_expired_at_expiry, ?_⟩
  have h := unlock_called_on_valid_post stW.links "rosdomofon_share_aa" lW
    (lW.created_at + lW.ttl_hours * 3600) sgW "Дверь подъезда" (Except.ok ())
    rfl lW_not_expired_at_expiry rfl
  simpa [lW] using h

/-- C3 amended: for every nonnegative TTL, `is_expired` is false at the moment
of issuance, and it is true exactly when `now` is strictly greater than
`expires_at`; in particular the link is still not expired at exactly
`expires_at`, and a confirmation request arriving at exactly `expires_at` is
accepted (the unlock is invoked) — the code's boundary is `now > expires_at`,
not `now >= expires_at`. -/
theorem expiry_boundary_is_strict (l : ShareLink) (now : ℚ) (h0 : 0 ≤ l.ttl_hours) :
    l.is_expired l.created_at = false ∧
    (l.is_expired now = true ↔ l.expires_at < now) ∧
    l.is_expired l.expires_at = false ∧
    (∀ (k n : String) (sg : String → Option String), sg l.entity_id = some n →
      (ShareLinkManager._handle_webhook [(k, l)] k Method.POST l.expires_at sg
          (Except.ok ())).unlockCalls = [(l.entity_id, true)]) := by
  have hts : (0 : ℚ) ≤ l.ttl_hours * 3600 := by positivity
  have hexp : l.is_expired l.expires_at = false := by
    simp [ShareLink.is_expired]
  refine ⟨?_, ?_, hexp, ?_⟩
  · simp [ShareLink.is_expired, ShareLink.expires_at]
    linarith
  · simp [ShareLink.is_expired]
  · intro k n sg hsg
    have hk : dictGet [(k, l)] k = some l := by simp [dictGet]
    simp [ShareLinkManager._handle_webhook, hk, hexp, hsg]

/-- C3 amended witness: the concrete link `lW` (TTL one hour) is not expired
at issuance, and a POST arriving at exactly its `expires_at` still invokes the
unlock action. -/
theorem expiry_boundary_is_strict_witness :
    lW.is_expired lW.created_at = false ∧
    (ShareLinkManager._handle_webhook [("rosdomofon_share_aa", lW)] "rosdomofon_share_aa"
        Method.POST lW.expires_at sgW (Except.ok ())).unlockCalls
      = [("lock.front_door", true)] :=
  ⟨(expiry_boundary_is_strict lW 0 (by norm_num [lW])).1,
   by
    have h := (expiry_boundary_is_strict lW 0 (by norm_num [lW])).2.2.2
      "rosdomofon_share_aa" "Дверь подъезда" sgW rfl
    simpa [lW] using h⟩

/-! ## C4 — TTL validation at issue-time -/

/-- C4 counterexample: with `ttl_hours = 1000` (far outside `[0.5, 168]`) and a
public URL available, `generate` does not fail with any validation error: it
returns the link URL and stores a record with the out-of-range TTL in the
registry. -/
theorem generate_ttl_unvalidated_counterexample :
    ¬ ((1 : ℚ) / 2 ≤ 1000 ∧ (1000 : ℚ) ≤ 168) ∧
    (ShareLinkManager.generate ManagerState.initial (some "https://hub.example") "deadbeef"
        "lock.front_door" 1000 0).1
      = Except.ok "https://hub.example/api/webhook/rosdomofon_share_deadbeef" ∧
    (ShareLinkManager.generate ManagerState.initial (some "https://hub.example") "deadbeef"
        "lock.front_door" 1000 0).2.links
      = [("rosdomofon_share_deadbeef",
          { webhook_id := "rosdomofon_share_deadbeef", entity_id := "lock.front_door",
            created_at := 0, ttl_hours := 1000 })] :=
  ⟨by norm_num, rfl, rfl⟩

/-- C4 amended: `ShareLinkManager.generate` itself performs no TTL validation —
for every `ttl_hours`, in range or not, it succeeds whenever a public URL is
available and stores the link with that TTL; the `[0.5, 168]` range check
exists only in the `generate_share_link` service schema of the UI layer
(`__init__.py`), which rejects out-of-range values before `generate` is
reached. -/
theorem generate_does_not_validate_ttl (st : ManagerState) (url uuid_hex entity_id : String)
    (ttl_hours now : ℚ) :
    (ShareLinkManager.generate st (some url) uuid_hex entity_id ttl_hours now).1
      = Except.ok (url ++ "/api/webhook/" ++ ("rosdomofon_share_" ++ uuid_hex)) ∧
    dictGet (ShareLinkManager.generate st (some url) uuid_hex entity_id ttl_hours now).2.links
        ("rosdomofon_share_" ++ uuid_hex)
      = some { webhook_id := "rosdomofon_share_" ++ uuid_hex, entity_id := entity_id,
               created_at := now, ttl_hours := ttl_hours } ∧
    (¬ ((1 : ℚ) / 2 ≤ ttl_hours ∧ ttl_hours ≤ 168) →
      SERVICE_GENERATE_LINK_SCHEMA_ttl_ok ttl_hours = false) := by
  refine ⟨rfl, ?_, ?_⟩
  · simp [ShareLinkManager.generate, dictGet_dictInsert_self]
  · intro hcon
    rcases not_and_or.mp hcon with h | h
    · have hd : decide ((1 : ℚ) / 2 ≤ ttl_hours) = false := by simpa using h
      unfold SERVICE_GENERATE_LINK_SCHEMA_ttl_ok
      rw [hd]
      simp
    · have hd : decide (ttl_hours ≤ (168 : ℚ)) = false := by simpa using h
      unfold SERVICE_GENERATE_LINK_SCHEMA_ttl_ok
      rw [hd]
      simp

/-- C4 amended witness: at the out-of-range TTL 1000 the issuer still succeeds
while the service schema rejects that TTL. -/
theorem generate_does_not_validate_ttl_witness :
    (ShareLinkManager.generate ManagerState.initial (some "https://hub.example") "deadbeef"
        "lock.front_door" 1000 0).1
      = Except.ok ("https://hub.example" ++ "/api/webhook/" ++ ("rosdomofon_share_" ++ "deadbeef")) ∧
    SERVICE_GENERATE_LINK_SCHEMA_ttl_ok 1000 = false :=
  ⟨(generate_does_not_validate_ttl ManagerState.initial "https://hub.example" "deadbeef"
      "lock.front_door" 1000 0).1,
   (generate_does_not_validate_ttl ManagerState.initial "https://hub.example" "deadbeef"
      "lock.front_door" 1000 0).2.2 (by norm_num)⟩

/-! ## C7 — duplicate link id -/

/-- C7 counterexample: starting from a registry that already holds a record
under id `rosdomofon_share_aa`, generating a new link whose random suffix
collides produces no `DuplicateLinkError` (no such error exists in the code):
the call succeeds and the registry's record under that id is silently replaced
by the new one, which differs from the old. -/
theorem duplicate_link_overwrite_counterexample :
    dictGet stW.links "rosdomofon_share_aa" = some lW ∧
    (ShareLinkManager.generate stW (some "https://hub.example") "aa" "lock.back_door" 2 5).1
      = Except.ok "https://hub.example/api/webhook/rosdomofon_share_aa" ∧
    dictGet (ShareLinkManager.generate stW (some "https://hub.example") "aa"
        "lock.back_door" 2 5).2.links "rosdomofon_share_aa"
      = some { webhook_id := "rosdomofon_share_aa", entity_id := "lock.back_door",
               created_at := 5, ttl_hours := 2 } ∧
    ({ webhook_id := "rosdomofon_share_aa", entity_id := "lock.back_door",
       created_at := 5, ttl_hours := 2 } : ShareLink) ≠ lW := by
  refine ⟨rfl, rfl, rfl, ?_⟩
  intro h
  have := congrArg ShareLink.entity_id h
  simp [lW] at this

/-- C7 amended: inserting a link under an id already present in the registry
does not fail — `generate` succeeds and the Python dict assignment silently
replaces the existing record with the new one, leaving the number of records
unchanged. -/
theorem generate_overwrites_duplicate (st : ManagerState) (url uuid_hex entity_id : String)
    (ttl_hours now : ℚ) (old : ShareLink)
    (h : dictGet st.links ("rosdomofon_share_" ++ uuid_hex) = some old) :
    (ShareLinkManager.generate st (some url) uuid_hex entity_id ttl_hours now).1
      = Except.ok (url ++ "/api/webhook/" ++ ("rosdomofon_share_" ++ uuid_hex)) ∧
    dictGet (ShareLinkManager.generate st (some url) uuid_hex entity_id ttl_hours now).2.links
        ("rosdomofon_share_" ++ uuid_hex)
      = some { webhook_id := "rosdomofon_share_" ++ uuid_hex, entity_id := entity_id,
               created_at := now, ttl_hours := ttl_hours } ∧
    (ShareLinkManager.generate st (some url) uuid_hex entity_id ttl_hours now).2.links.length
      = st.links.length := by
  refine ⟨rfl, ?_, ?_⟩
  · simp [ShareLinkManager.generate, dictGet_dictInsert_self]
  · simpa [ShareLinkManager.generate] using
      length_dictInsert_of_mem st.links ("rosdomofon_share_" ++ uuid_hex) _ old h

/-- C7 amended witness: the concrete collision of
`duplicate_link_overwrite_counterexample`, via the general theorem. -/
theorem generate_overwrites_duplicate_witness :
    dictGet (ShareLinkManager.generate stW (some "https://hub.example") "aa"
        "lock.back_door" 2 5).2.links ("rosdomofon_share_" ++ "aa")
      = some { webhook_id := "rosdomofon_share_" ++ "aa", entity_id := "lock.back_door",
               created_at := 5, ttl_hours := 2 } ∧
    (ShareLinkManager.generate stW (some "https://hub.example") "aa"
        "lock.back_door" 2 5).2.links.length = stW.links.length :=
  ⟨(generate_overwrites_duplicate stW "https://hub.example" "aa" "lock.back_door" 2 5 lW rfl).2.1,
   (generate_overwrites_duplicate stW "https://hub.example" "aa" "lock.back_door" 2 5 lW rfl).2.2⟩

/-! ## C2 — guest-facing error contents -/

/-- C2 counterexample: on a downstream actuation failure the 500 response body
embeds `str(exc)` under the `error` key, so two runs differing only in the
raised exception produce different response bodies — the claim that exception
details are never included and that such runs produce identical bodies is
false on the code. -/
theorem error_response_leaks_exception_counterexample :
    (ShareLinkManager._handle_webhook stW.links "rosdomofon_share_aa" Method.POST 10 sgW
        (Except.error "ValueError: boom")).response.body
      = ResponseBody.json
          [("status", "error"), ("error", "ValueError: boom"), ("title", "Ошибка"),
           ("message", "Не удалось открыть Дверь подъезда. Попробуйте позже.")] ∧
    (ShareLinkManager._handle_webhook stW.links "rosdomofon_share_aa" Method.POST 10 sgW
        (Except.error "ValueError: boom")).response
      ≠ (ShareLinkManager._handle_webhook stW.links "rosdomofon_share_aa" Method.POST 10 sgW
          (Except.error "KeyError: s3cret")).response := by
  have h1 : dictGet stW.links "rosdomofon_share_aa" = some lW := rfl
  have h3 : sgW lW.entity_id = some "Дверь подъезда" := rfl
  constructor
  · simp [ShareLinkManager._handle_webhook, h1, lW_not_expired_at_10, h3]
  · simp [ShareLinkManager._handle_webhook, h1, lW_not_expired_at_10, h3]

/-- C2 amended: the invalid-link (410) response is a fixed generic page that
does not depend on the actuation outcome at all, and the 500 failure
response's human-readable `message` field is generic; but the 500 body also
carries the exception text `str(exc)` verbatim under its `error` key, so
response bodies do differ between runs that differ only in the raised
exception. -/
theorem guest_error_response_contents
    (links : List (String × ShareLink)) (webhook_id : String) (now : ℚ)
    (l : ShareLink) (sg : String → Option String) (name : String) (e : String)
    (h1 : dictGet links webhook_id = some l) (h2 : l.is_expired now = false)
    (h3 : sg l.entity_id = some name) (h4 : name ≠ "") :
    (ShareLinkManager._handle_webhook links webhook_id Method.POST now sg
        (Except.error e)).response.status = 500 ∧
    (ShareLinkManager._handle_webhook links webhook_id Method.POST now sg
        (Except.error e)).response.body
      = ResponseBody.json
          [("status", "error"), ("error", e), ("title", "Ошибка"),
           ("message", "Не удалось открыть " ++ name ++ ". Попробуйте позже.")] ∧
    (∀ (links2 : List (String × ShareLink)) (id2 : String) (m2 : Method) (now2 : ℚ)
        (sg2 : String → Option String) (e1 e2 : String), dictGet links2 id2 = none →
      ShareLinkManager._handle_webhook links2 id2 m2 now2 sg2 (Except.error e1)
        = ShareLinkManager._handle_webhook links2 id2 m2 now2 sg2 (Except.error e2)) := by
  refine ⟨?_, ?_, ?_⟩
  · simp [ShareLinkManager._handle_webhook, h1, h2, h3, h4]
  · simp [ShareLinkManager._handle_webhook, h1, h2, h3, h4]
  · intro links2 id2 m2 now2 sg2 e1 e2 hnone
    simp [ShareLinkManager._handle_webhook, hnone]

/-- C2 amended witness: concrete 500 on `stW` with a concrete exception, and
the constancy of the invalid-link response on the empty registry. -/
theorem guest_error_response_contents_witness :
    (ShareLinkManager._handle_webhook stW.links "rosdomofon_share_aa" Method.POST 10 sgW
        (Except.error "ValueError: boom")).response.status = 500 ∧
    ShareLinkManager._handle_webhook [] "rosdomofon_share_zz" Method.POST 0 sgW
        (Except.error "ValueError: boom")
      = ShareLinkManager._handle_webhook [] "rosdomofon_share_zz" Method.POST 0 sgW
          (Except.error "KeyError: s3cret") :=
  ⟨(guest_error_response_contents stW.links "rosdomofon_share_aa" 10 lW sgW
      "Дверь подъезда" "ValueError: boom" rfl lW_not_expired_at_10 rfl (by decide)).1,
   (guest_error_response_contents stW.links "rosdomofon_share_aa" 10 lW sgW
      "Дверь подъезда" "ValueError: boom" rfl lW_not_expired_at_10 rfl (by decide)).2.2
     [] "rosdomofon_share_zz" Method.POST 0 sgW "ValueError: boom" "KeyError: s3cret" rfl⟩

/-! ## C8 — GET returns the confirmation page without side effects -/

/-- C8: a GET on a present, unexpired link whose entity resolves returns a 200
`text/html` confirmation page — exactly `_html_page_with_button` applied to
the display name and the remaining hours and minutes, so the page contains
the device's name and the remaining validity verbatim — and has no side
effect: the registry is unchanged and no unlock action is invoked. -/
theorem get_returns_confirmation_page
    (links : List (String × ShareLink)) (webhook_id : String) (now : ℚ)
    (l : ShareLink) (sg : String → Option String) (name : String) (ur : Except String Unit)
    (h1 : dictGet links webhook_id = some l) (h2 : l.is_expired now = false)
    (h3 : sg l.entity_id = some name) (h4 : name ≠ "") :
    (ShareLinkManager._handle_webhook links webhook_id Method.GET now sg ur).response.status
      = 200 ∧
    (ShareLinkManager._handle_webhook links webhook_id Method.GET now sg ur).response.content_type
      = "text/html" ∧
    (ShareLinkManager._handle_webhook links webhook_id Method.GET now sg ur).response.body
      = ResponseBody.html (_html_page_with_button name
          ⌊max 0 (l.expires_at - now) / 3600⌋
          ⌊(max 0 (l.expires_at - now)
              - 3600 * ((⌊max 0 (l.expires_at - now) / 3600⌋ : ℤ) : ℚ)) / 60⌋) ∧
    (∀ rh rm : ℤ, ∃ A B, _html_page_with_button name rh rm = A ++ name ++ B) ∧
    (∀ rh rm : ℤ, ∃ C D, _html_page_with_button name rh rm
        = C ++ toString rh ++ htmlButtonSeg3 ++ toString rm ++ D) ∧
    (ShareLinkManager._handle_webhook links webhook_id Method.GET now sg ur).links = links ∧
    (ShareLinkManager._handle_webhook links webhook_id Method.GET now sg ur).unlockCalls
      = [] := by
  refine ⟨?_, ?_, ?_, ?_, ?_, ?_, ?_⟩
  · simp [ShareLinkManager._handle_webhook, h1, h2, h3]
  · simp [ShareLinkManager._handle_webhook, h1, h2, h3]
  · simp [ShareLinkManager._handle_webhook, h1, h2, h3, h4]
  · intro rh rm
    exact ⟨htmlButtonSeg1,
      htmlButtonSeg2 ++ toString rh ++ htmlButtonSeg3 ++ toString rm ++ htmlButtonSeg4,
      by simp [_html_page_with_button, String.append_assoc]⟩
  · intro rh rm
    exact ⟨htmlButtonSeg1 ++ name ++ htmlButtonSeg2, htmlButtonSeg4, rfl⟩
  · simp [ShareLinkManager._handle_webhook, h1, h2, h3]
  · simp [ShareLinkManager._handle_webhook, h1, h2, h3]

/-- C8 witness: a concrete GET on `stW` ten seconds after issuance returns a
200 page and leaves the registry and the lock untouched. -/
theorem get_returns_confirmation_page_witness :
    (ShareLinkManager._handle_webhook stW.links "rosdomofon_share_aa" Method.GET 10 sgW
        (Except.ok ())).response.status = 200 ∧
    (ShareLinkManager._handle_webhook stW.links "rosdomofon_share_aa" Method.GET 10 sgW
        (Except.ok ())).links = stW.links ∧
    (ShareLinkManager._handle_webhook stW.links "rosdomofon_share_aa" Method.GET 10 sgW
        (Except.ok ())).unlockCalls = [] :=
  ⟨(get_returns_confirmation_page stW.links "rosdomofon_share_aa" 10 lW sgW
      "Дверь подъезда" (Except.ok ()) rfl lW_not_expired_at_10 rfl (by decide)).1,
   (get_returns_confirmation_page stW.links "rosdomofon_share_aa" 10 lW sgW
      "Дверь подъезда" (Except.ok ()) rfl lW_not_expired_at_10 rfl (by decide)).2.2.2.2.2.1,
   (get_returns_confirmation_page stW.links "rosdomofon_share_aa" 10 lW sgW
      "Дверь подъезда" (Except.ok ()) rfl lW_not_expired_at_10 rfl (by decide)).2.2.2.2.2.2⟩

/-! ## C9 — POST invokes the unlock exactly once and is retryable -/

/-- C9: a POST on a present, unexpired link whose entity resolves invokes the
unlock action on exactly the link's entity exactly once with `blocking=True`;
the registry is not mutated, so if the invocation raises the guest gets a 500
retryable response while the link remains present, and an identical repeated
confirmation invokes the unlock again. -/
theorem post_unlocks_exactly_once
    (links : List (String × ShareLink)) (webhook_id : String) (now : ℚ)
    (l : ShareLink) (sg : String → Option String) (name : String) (ur : Except String Unit)
    (h1 : dictGet links webhook_id = some l) (h2 : l.is_expired now = false)
    (h3 : sg l.entity_id = some name) :
    (ShareLinkManager._handle_webhook links webhook_id Method.POST now sg ur).unlockCalls
      = [(l.entity_id, true)] ∧
    (ShareLinkManager._handle_webhook links webhook_id Method.POST now sg ur).links = links ∧
    (∀ e, ur = Except.error e →
      (ShareLinkManager._handle_webhook links webhook_id Method.POST now sg ur).response.status
        = 500 ∧
      dictGet (ShareLinkManager._handle_webhook links webhook_id Method.POST now sg ur).links
          webhook_id = some l) ∧
    (ShareLinkManager._handle_webhook
        (ShareLinkManager._handle_webhook links webhook_id Method.POST now sg ur).links
        webhook_id Method.POST now sg ur).unlockCalls = [(l.entity_id, true)] := by
  have hcalls := unlock_called_on_valid_post links webhook_id l now sg name ur h1 h2 h3
  have hlinks :
      (ShareLinkManager._handle_webhook links webhook_id Method.POST now sg ur).links
        = links := by
    cases ur with
    | error e => simp [ShareLinkManager._handle_webhook, h1, h2, h3]
    | ok u => simp [ShareLinkManager._handle_webhook, h1, h2, h3]
  refine ⟨hcalls, hlinks, ?_, ?_⟩
  · intro e he
    subst he
    constructor
    · simp [ShareLinkManager._handle_webhook, h1, h2, h3]
    · rw [hlinks]
      exact h1
  · rw [hlinks]
    exact hcalls

/-- C9 witness: a concrete failing POST on `stW` — the unlock is invoked once
with `blocking=True`, the response is a 500, the link is still registered, and
a retry invokes the unlock once more. -/
theorem post_unlocks_exactly_once_witness :
    (ShareLinkManager._handle_webhook stW.links "rosdomofon_share_aa" Method.POST 10 sgW
        (Except.error "boom")).unlockCalls = [(lW.entity_id, true)] ∧
    (ShareLinkManager._handle_webhook stW.links "rosdomofon_share_aa" Method.POST 10 sgW
        (Except.error "boom")).response.status = 500 ∧
    dictGet (ShareLinkManager._handle_webhook stW.links "rosdomofon_share_aa" Method.POST 10
        sgW (Except.error "boom")).links "rosdomofon_share_aa" = some lW :=
  ⟨(post_unlocks_exactly_once stW.links "rosdomofon_share_aa" 10 lW sgW
      "Дверь подъезда" (Except.error "boom") rfl lW_not_expired_at_10 rfl).1,
   ((post_unlocks_exactly_once stW.links "rosdomofon_share_aa" 10 lW sgW
      "Дверь подъезда" (Except.error "boom") rfl lW_not_expired_at_10 rfl).2.2.1
     "boom" rfl).1,
   ((post_unlocks_exactly_once stW.links "rosdomofon_share_aa" 10 lW sgW
      "Дверь подъезда" (Except.error "boom") rfl lW_not_expired_at_10 rfl).2.2.1
     "boom" rfl).2⟩

/-! ## C10 — display name embedded verbatim in the page -/

/-- C10: for every display name, including strings containing HTML markup, the
confirmation page builder inserts the name into the HTML verbatim — the page
is literally the text before the name, then the name character for character,
then the rest; no escaping or sanitization is applied. -/
theorem display_name_embedded_verbatim (name : String) (rh rm : ℤ) :
    ∃ A B, _html_page_with_button name rh rm = A ++ name ++ B :=
  ⟨htmlButtonSeg1,
   htmlButtonSeg2 ++ toString rh ++ htmlButtonSeg3 ++ toString rm ++ htmlButtonSeg4,
   by simp [_html_page_with_button, String.append_assoc]⟩
